import Mathlib

/-!
Shallow embedding of the candlestick pattern detector
(candlestick_patterns.py) over exact rationals, together with proofs of
the specification claims about it.

Prices are modelled as rationals; the Python code performs the same
comparisons over floats, but every predicate compares linear expressions
with the fixed constants 0.1, 0.2, 0.5 and 2, so the rational model
matches the float code on all inputs whose prices are exactly
representable.  A pandas DataFrame is modelled as a list of candles
together with one presence flag per required column.
-/

namespace Candlestick

/-- Model of one OHLC row.  The field `open` of the source is renamed
`open_` because `open` is a Lean keyword. -/
structure Candle where
  open_ : ℚ
  high : ℚ
  low : ℚ
  close : ℚ
deriving DecidableEq, Repr, Inhabited

/-- Signed body, column `body = close - open` of `_prepare_data`. -/
def body (c : Candle) : ℚ := c.close - c.open_

/-- Column `body_size = abs(body)`. -/
def body_size (c : Candle) : ℚ := |body c|

/-- Column `upper_shadow = high - max(open, close)`. -/
def upper_shadow (c : Candle) : ℚ := c.high - max c.open_ c.close

/-- Column `lower_shadow = min(open, close) - low`. -/
def lower_shadow (c : Candle) : ℚ := min c.open_ c.close - c.low

/-- Column `total_size = high - low`. -/
def total_size (c : Candle) : ℚ := c.high - c.low

/-- Column `is_bullish = body > 0`. -/
def is_bullish (c : Candle) : Bool := decide (0 < body c)

/-- Column `is_bearish = body < 0`. -/
def is_bearish (c : Candle) : Bool := decide (body c < 0)

/-! Single candlestick predicates (`_is_doji` .. `_is_marubozu`). -/

/-- Method `_is_doji`; the second argument is unused by the source body,
exactly as in the Python method. -/
def is_doji (c : Candle) (avg_total : ℚ) : Bool :=
  decide (body_size c ≤ 0.1 * total_size c)

/-- Method `_is_dragonfly_doji`. -/
def is_dragonfly_doji (c : Candle) : Bool :=
  decide (body_size c ≤ 0.1 * total_size c) &&
  decide (upper_shadow c ≤ 0.1 * total_size c) &&
  decide (2 * body_size c < lower_shadow c)

/-- Method `_is_gravestone_doji`. -/
def is_gravestone_doji (c : Candle) : Bool :=
  decide (body_size c ≤ 0.1 * total_size c) &&
  decide (lower_shadow c ≤ 0.1 * total_size c) &&
  decide (2 * body_size c < upper_shadow c)

/-- Method `_is_long_legged_doji`. -/
def is_long_legged_doji (c : Candle) : Bool :=
  decide (body_size c ≤ 0.1 * total_size c) &&
  decide (0.2 * total_size c < upper_shadow c) &&
  decide (0.2 * total_size c < lower_shadow c)

/-- Method `_is_hammer`. -/
def is_hammer (c : Candle) (avg_body : ℚ) : Bool :=
  decide (2 * avg_body < lower_shadow c) &&
  decide (upper_shadow c < avg_body) &&
  decide (body_size c < avg_body)

/-- Method `_is_inverted_hammer`. -/
def is_inverted_hammer (c : Candle) (avg_body : ℚ) : Bool :=
  decide (2 * avg_body < upper_shadow c) &&
  decide (lower_shadow c < avg_body) &&
  decide (body_size c < avg_body)

/-- Method `_is_hanging_man`. -/
def is_hanging_man (c : Candle) (avg_body : ℚ) : Bool :=
  decide (2 * avg_body < lower_shadow c) &&
  decide (upper_shadow c < avg_body) &&
  decide (body_size c < avg_body) &&
  is_bearish c

/-- Method `_is_shooting_star`. -/
def is_shooting_star (c : Candle) (avg_body : ℚ) : Bool :=
  decide (2 * avg_body < upper_shadow c) &&
  decide (lower_shadow c < avg_body) &&
  decide (body_size c < avg_body) &&
  is_bearish c

/-- Method `_is_spinning_top`. -/
def is_spinning_top (c : Candle) (avg_body : ℚ) : Bool :=
  decide (avg_body < upper_shadow c) &&
  decide (avg_body < lower_shadow c) &&
  decide (body_size c < avg_body)

/-- Method `_is_marubozu`. -/
def is_marubozu (c : Candle) (avg_body : ℚ) : Bool :=
  decide (2 * avg_body < body_size c) &&
  decide (upper_shadow c < 0.1 * body_size c) &&
  decide (lower_shadow c < 0.1 * body_size c)

/-! Two candlestick predicates. -/

/-- Method `_is_bullish_engulfing`. -/
def is_bullish_engulfing (current previous : Candle) : Bool :=
  is_bearish previous && is_bullish current &&
  decide (current.open_ < previous.close) &&
  decide (previous.open_ < current.close)

/-- Method `_is_bearish_engulfing`. -/
def is_bearish_engulfing (current previous : Candle) : Bool :=
  is_bullish previous && is_bearish current &&
  decide (previous.close < current.open_) &&
  decide (current.close < previous.open_)

/-- Method `_is_bullish_harami`. -/
def is_bullish_harami (current previous : Candle) : Bool :=
  is_bearish previous && is_bullish current &&
  decide (current.high < previous.open_) &&
  decide (previous.close < current.low)

/-- Method `_is_bearish_harami`. -/
def is_bearish_harami (current previous : Candle) : Bool :=
  is_bullish previous && is_bearish current &&
  decide (current.high < previous.close) &&
  decide (previous.open_ < current.low)

/-- Method `_is_harami_cross`; note it passes the total size of the
current candle itself (not the rolling baseline) to `is_doji`. -/
def is_harami_cross (current previous : Candle) : Bool :=
  (is_bullish_harami current previous || is_bearish_harami current previous) &&
  is_doji current (total_size current)

/-- Method `_is_piercing_pattern`. -/
def is_piercing_pattern (current previous : Candle) : Bool :=
  is_bearish previous && is_bullish current &&
  decide (current.open_ < previous.low) &&
  decide (previous.close + body_size previous / 2 < current.close)

/-- Method `_is_dark_cloud_cover`. -/
def is_dark_cloud_cover (current previous : Candle) : Bool :=
  is_bullish previous && is_bearish current &&
  decide (previous.high < current.open_) &&
  decide (current.close < previous.close - body_size previous / 2)

/-- Method `_is_tweezer_tops`. -/
def is_tweezer_tops (current previous : Candle) : Bool :=
  decide (|current.high - previous.high| < 0.1 * current.high) &&
  is_bearish current && is_bullish previous

/-- Method `_is_tweezer_bottoms`. -/
def is_tweezer_bottoms (current previous : Candle) : Bool :=
  decide (|current.low - previous.low| < 0.1 * current.low) &&
  is_bullish current && is_bearish previous

/-! Three candlestick predicates. -/

/-- Method `_is_morning_star`. -/
def is_morning_star (first second third : Candle) : Bool :=
  is_bearish first &&
  decide (body_size second < 0.5 * body_size first) &&
  is_bullish third &&
  decide ((first.open_ + first.close) / 2 < third.close)

/-- Method `_is_evening_star`. -/
def is_evening_star (first second third : Candle) : Bool :=
  is_bullish first &&
  decide (body_size second < 0.5 * body_size first) &&
  is_bearish third &&
  decide (third.close < (first.open_ + first.close) / 2)

/-- Method `_is_three_white_soldiers`. -/
def is_three_white_soldiers (first second third : Candle) : Bool :=
  is_bullish first && is_bullish second && is_bullish third &&
  decide (first.open_ < second.open_) && decide (second.open_ < third.open_) &&
  decide (first.close < second.close) && decide (second.close < third.close)

/-- Method `_is_three_black_crows`. -/
def is_three_black_crows (first second third : Candle) : Bool :=
  is_bearish first && is_bearish second && is_bearish third &&
  decide (second.open_ < first.open_) && decide (third.open_ < second.open_) &&
  decide (second.close < first.close) && decide (third.close < second.close)

/-- Method `_is_three_inside_up`. -/
def is_three_inside_up (first second third : Candle) : Bool :=
  is_bearish first && is_bullish_harami second first &&
  is_bullish third && decide (second.high < third.close)

/-- Method `_is_three_inside_down`. -/
def is_three_inside_down (first second third : Candle) : Bool :=
  is_bullish first && is_bearish_harami second first &&
  is_bearish third && decide (third.close < second.low)

/-- Method `_is_three_outside_up`. -/
def is_three_outside_up (first second third : Candle) : Bool :=
  is_bearish first && is_bullish_engulfing second first &&
  is_bullish third && decide (second.high < third.close)

/-- Method `_is_three_outside_down`. -/
def is_three_outside_down (first second third : Candle) : Bool :=
  is_bullish first && is_bearish_engulfing second first &&
  is_bearish third && decide (third.close < second.low)

/-! Rolling baselines of `_prepare_data`: pandas
`rolling(window=20, min_periods=1).mean()` takes, at index `i`, the mean
of the most recent `min 20 (i+1)` values ending at `i` inclusive. -/

/-- Value at index `i` of `rolling(window=20, min_periods=1).mean()`
applied to the list `xs`. -/
def rollingMean20 (xs : List ℚ) (i : ℕ) : ℚ :=
  let w := min 20 (i + 1)
  (((xs.take (i + 1)).drop (i + 1 - w)).sum) / (w : ℚ)

/-- Attribute `avg_body_size` of the detector, at index `i`. -/
def avg_body_size (cs : List Candle) (i : ℕ) : ℚ :=
  rollingMean20 (cs.map body_size) i

/-- Attribute `avg_total_size` of the detector, at index `i`. -/
def avg_total_size (cs : List Candle) (i : ℕ) : ℚ :=
  rollingMean20 (cs.map total_size) i

/-! The aggregator (`detect_all_patterns` and its three tier helpers). -/

/-- Doji family chain of `_detect_single_candlestick_patterns`: the
first matching branch decides the one emitted family label. -/
def doji_label (current : Candle) : String :=
  if is_dragonfly_doji current then "Dragonfly Doji"
  else if is_gravestone_doji current then "Gravestone Doji"
  else if decide (upper_shadow current ≤ 0.1 * total_size current) &&
          decide (lower_shadow current ≤ 0.1 * total_size current) then "Doji"
  else if is_long_legged_doji current then "Long-legged Doji"
  else "Doji"

/-- Body of `_detect_single_candlestick_patterns` once the tail candle
and the two baselines have been extracted: the Doji family chain
followed by the independent single-candle tests, appended in source
order. -/
def single_patterns (current : Candle) (avg_body avg_total : ℚ) : List String :=
  (if is_doji current avg_total then [doji_label current] else []) ++
  (if is_hammer current avg_body then ["Hammer"] else []) ++
  (if is_inverted_hammer current avg_body then ["Inverted Hammer"] else []) ++
  (if is_hanging_man current avg_body then ["Hanging Man"] else []) ++
  (if is_shooting_star current avg_body then ["Shooting Star"] else []) ++
  (if is_spinning_top current avg_body then ["Spinning Top"] else []) ++
  (if is_marubozu current avg_body then
    [if is_bullish current then "Bullish Marubozu" else "Bearish Marubozu"]
   else [])

/-- Body of `_detect_two_candlestick_patterns` once the two tail candles
have been extracted. -/
def two_patterns (current previous : Candle) : List String :=
  (if is_bullish_engulfing current previous then ["Bullish Engulfing"] else []) ++
  (if is_bearish_engulfing current previous then ["Bearish Engulfing"] else []) ++
  (if is_bullish_harami current previous then ["Bullish Harami"] else []) ++
  (if is_bearish_harami current previous then ["Bearish Harami"] else []) ++
  (if is_harami_cross current previous then ["Harami Cross"] else []) ++
  (if is_piercing_pattern current previous then ["Piercing Pattern"] else []) ++
  (if is_dark_cloud_cover current previous then ["Dark Cloud Cover"] else []) ++
  (if is_tweezer_tops current previous then ["Tweezer Tops"] else []) ++
  (if is_tweezer_bottoms current previous then ["Tweezer Bottoms"] else [])

/-- Body of `_detect_three_candlestick_patterns` once the three tail
candles have been extracted. -/
def three_patterns (first second third : Candle) : List String :=
  (if is_morning_star first second third then ["Morning Star"] else []) ++
  (if is_evening_star first second third then ["Evening Star"] else []) ++
  (if is_three_white_soldiers first second third then ["Three White Soldiers"] else []) ++
  (if is_three_black_crows first second third then ["Three Black Crows"] else []) ++
  (if is_three_inside_up first second third then ["Three Inside Up"] else []) ++
  (if is_three_inside_down first second third then ["Three Inside Down"] else []) ++
  (if is_three_outside_up first second third then ["Three Outside Up"] else []) ++
  (if is_three_outside_down first second third then ["Three Outside Down"] else [])

/-- Method `_detect_single_candlestick_patterns`: returns `[]` on a
series of length `< 1`, otherwise evaluates `single_patterns` on the
last candle (`iloc[-1]`) with the rolling baselines at the last index. -/
def detect_single (cs : List Candle) : List String :=
  match cs.reverse with
  | current :: _ =>
      single_patterns current
        (avg_body_size cs (cs.length - 1)) (avg_total_size cs (cs.length - 1))
  | [] => []

/-- Method `_detect_two_candlestick_patterns`: returns `[]` on a series
of length `< 2`, otherwise evaluates `two_patterns` on `iloc[-1]` and
`iloc[-2]`. -/
def detect_two (cs : List Candle) : List String :=
  match cs.reverse with
  | current :: previous :: _ => two_patterns current previous
  | _ => []

/-- Method `_detect_three_candlestick_patterns`: returns `[]` on a
series of length `< 3`, otherwise evaluates `three_patterns` on
`iloc[-3]`, `iloc[-2]`, `iloc[-1]`. -/
def detect_three (cs : List Candle) : List String :=
  match cs.reverse with
  | third :: second :: first :: _ => three_patterns first second third
  | _ => []

/-- Method `detect_all_patterns`: the three tiers appended in order. -/
def detect_all_patterns (cs : List Candle) : List String :=
  detect_single cs ++ detect_two cs ++ detect_three cs

/-! The public entry point and schema validation. -/

/-- Model of the input DataFrame: a pandas frame either has a column or
does not, independently of its number of rows, so the required columns
are modelled by one presence flag each next to the row data. -/
structure RawFrame where
  hasOpen : Bool
  hasHigh : Bool
  hasLow : Bool
  hasClose : Bool
  rows : List Candle
deriving Repr

/-- Validation loop of `_prepare_data`: checks the required columns in
the fixed order `open, high, low, close` and raises `ValueError` (the
SchemaError of the spec) at the first missing one. -/
def prepare_check (f : RawFrame) : Except String Unit :=
  if !f.hasOpen then .error "Missing required column: open"
  else if !f.hasHigh then .error "Missing required column: high"
  else if !f.hasLow then .error "Missing required column: low"
  else if !f.hasClose then .error "Missing required column: close"
  else .ok ()

/-- Function `detect_candlestick_patterns`: empty input short-circuits
to `[]` before the detector (and hence the schema check) is ever
constructed; otherwise construction validates the schema and the
detector runs on the rows. -/
def detect_candlestick_patterns (f : RawFrame) : Except String (List String) :=
  if f.rows.isEmpty || f.rows.length < 1 then .ok []
  else
    match prepare_check f with
    | .error e => .error e
    | .ok _ => .ok (detect_all_patterns f.rows)

/-! Fixed label vocabulary, in the emission order of the aggregator. -/

/-- Single-candle labels in table order. -/
def singleTable : List String :=
  ["Dragonfly Doji", "Gravestone Doji", "Doji", "Long-legged Doji",
   "Hammer", "Inverted Hammer", "Hanging Man", "Shooting Star",
   "Spinning Top", "Bullish Marubozu", "Bearish Marubozu"]

/-- Two-candle labels in table order. -/
def twoTable : List String :=
  ["Bullish Engulfing", "Bearish Engulfing", "Bullish Harami",
   "Bearish Harami", "Harami Cross", "Piercing Pattern",
   "Dark Cloud Cover", "Tweezer Tops", "Tweezer Bottoms"]

/-- Three-candle labels in table order. -/
def threeTable : List String :=
  ["Morning Star", "Evening Star", "Three White Soldiers",
   "Three Black Crows", "Three Inside Up", "Three Inside Down",
   "Three Outside Up", "Three Outside Down"]

/-- Full label vocabulary in emission order. -/
def fullTable : List String := singleTable ++ twoTable ++ threeTable

/-- Labels of the Doji family. -/
def dojiFamily : List String :=
  ["Dragonfly Doji", "Gravestone Doji", "Doji", "Long-legged Doji"]

/-- Marubozu labels. -/
def marubozuLabels : List String := ["Bullish Marubozu", "Bearish Marubozu"]

/-! Helper lemmas about conditional singleton pieces. -/

@[simp]
theorem mem_ite_singleton {x y : String} {b : Bool} :
    x ∈ (if b then [y] else ([] : List String)) ↔ b = true ∧ x = y := by
  cases b <;> simp

theorem ite_sublist {b : Bool} {l m : List String} (h : List.Sublist l m) :
    List.Sublist (if b then l else []) m := by
  cases b
  · simpa using List.nil_sublist m
  · simpa using h

theorem doji_label_mem (c : Candle) : doji_label c ∈ dojiFamily := by
  unfold doji_label dojiFamily
  repeat' split
  all_goals simp

/-! Each tier emits a sublist of its fixed table. -/

theorem single_patterns_sublist (c : Candle) (aB aT : ℚ) :
    List.Sublist (single_patterns c aB aT) singleTable := by
  show List.Sublist (single_patterns c aB aT)
    (dojiFamily ++ ["Hammer"] ++ ["Inverted Hammer"] ++ ["Hanging Man"] ++
      ["Shooting Star"] ++ ["Spinning Top"] ++ ["Bullish Marubozu", "Bearish Marubozu"])
  unfold single_patterns
  refine List.Sublist.append (List.Sublist.append (List.Sublist.append
    (List.Sublist.append (List.Sublist.append (List.Sublist.append ?_ ?_) ?_) ?_) ?_) ?_) ?_
  · exact ite_sublist (List.singleton_sublist.mpr (doji_label_mem c))
  · exact ite_sublist (List.Sublist.refl _)
  · exact ite_sublist (List.Sublist.refl _)
  · exact ite_sublist (List.Sublist.refl _)
  · exact ite_sublist (List.Sublist.refl _)
  · exact ite_sublist (List.Sublist.refl _)
  · refine ite_sublist (List.singleton_sublist.mpr ?_)
    cases h : is_bullish c <;> simp

theorem two_patterns_sublist (c p : Candle) : List.Sublist (two_patterns c p) twoTable := by
  show List.Sublist (two_patterns c p)
    (["Bullish Engulfing"] ++ ["Bearish Engulfing"] ++ ["Bullish Harami"] ++
      ["Bearish Harami"] ++ ["Harami Cross"] ++ ["Piercing Pattern"] ++
      ["Dark Cloud Cover"] ++ ["Tweezer Tops"] ++ ["Tweezer Bottoms"])
  unfold two_patterns
  refine List.Sublist.append (List.Sublist.append (List.Sublist.append
    (List.Sublist.append (List.Sublist.append (List.Sublist.append
      (List.Sublist.append (List.Sublist.append ?_ ?_) ?_) ?_) ?_) ?_) ?_) ?_) ?_ <;>
    exact ite_sublist (List.Sublist.refl _)

theorem three_patterns_sublist (a b c : Candle) :
    List.Sublist (three_patterns a b c) threeTable := by
  show List.Sublist (three_patterns a b c)
    (["Morning Star"] ++ ["Evening Star"] ++ ["Three White Soldiers"] ++
      ["Three Black Crows"] ++ ["Three Inside Up"] ++ ["Three Inside Down"] ++
      ["Three Outside Up"] ++ ["Three Outside Down"])
  unfold three_patterns
  refine List.Sublist.append (List.Sublist.append (List.Sublist.append
    (List.Sublist.append (List.Sublist.append (List.Sublist.append
      (List.Sublist.append ?_ ?_) ?_) ?_) ?_) ?_) ?_) ?_ <;>
    exact ite_sublist (List.Sublist.refl _)

theorem detect_single_sublist (cs : List Candle) :
    List.Sublist (detect_single cs) singleTable := by
  unfold detect_single
  split
  · exact single_patterns_sublist _ _ _
  · exact List.nil_sublist _

theorem detect_two_sublist (cs : List Candle) : List.Sublist (detect_two cs) twoTable := by
  unfold detect_two
  split
  · exact two_patterns_sublist _ _
  · exact List.nil_sublist _

theorem detect_three_sublist (cs : List Candle) :
    List.Sublist (detect_three cs) threeTable := by
  unfold detect_three
  split
  · exact three_patterns_sublist _ _ _
  · exact List.nil_sublist _

theorem detect_all_sublist (cs : List Candle) :
    List.Sublist (detect_all_patterns cs) fullTable :=
  List.Sublist.append (List.Sublist.append (detect_single_sublist cs)
    (detect_two_sublist cs)) (detect_three_sublist cs)

/-! Extraction of the tail candles from an arbitrary series. -/

theorem detect_single_append (pre : List Candle) (c : Candle) :
    detect_single (pre ++ [c]) =
      single_patterns c (avg_body_size (pre ++ [c]) pre.length)
        (avg_total_size (pre ++ [c]) pre.length) := by
  have h : (pre ++ [c]).reverse = c :: pre.reverse := by simp
  unfold detect_single
  rw [h]
  simp

theorem detect_two_append (pre : List Candle) (p c : Candle) :
    detect_two (pre ++ [p, c]) = two_patterns c p := by
  have h : (pre ++ [p, c]).reverse = c :: p :: pre.reverse := by simp
  unfold detect_two
  rw [h]

theorem detect_three_append (pre : List Candle) (a b c : Candle) :
    detect_three (pre ++ [a, b, c]) = three_patterns a b c := by
  have h : (pre ++ [a, b, c]).reverse = c :: b :: a :: pre.reverse := by simp
  unfold detect_three
  rw [h]

/-! Membership characterizations of the three tier bodies. -/

theorem mem_single_patterns_iff {l : String} {c : Candle} {aB aT : ℚ} :
    l ∈ single_patterns c aB aT ↔
      (is_doji c aT = true ∧ l = doji_label c) ∨
      (is_hammer c aB = true ∧ l = "Hammer") ∨
      (is_inverted_hammer c aB = true ∧ l = "Inverted Hammer") ∨
      (is_hanging_man c aB = true ∧ l = "Hanging Man") ∨
      (is_shooting_star c aB = true ∧ l = "Shooting Star") ∨
      (is_spinning_top c aB = true ∧ l = "Spinning Top") ∨
      (is_marubozu c aB = true ∧
        l = (if is_bullish c then "Bullish Marubozu" else "Bearish Marubozu")) := by
  simp [single_patterns, List.mem_append, or_assoc]

theorem mem_two_patterns_iff {l : String} {c p : Candle} :
    l ∈ two_patterns c p ↔
      (is_bullish_engulfing c p = true ∧ l = "Bullish Engulfing") ∨
      (is_bearish_engulfing c p = true ∧ l = "Bearish Engulfing") ∨
      (is_bullish_harami c p = true ∧ l = "Bullish Harami") ∨
      (is_bearish_harami c p = true ∧ l = "Bearish Harami") ∨
      (is_harami_cross c p = true ∧ l = "Harami Cross") ∨
      (is_piercing_pattern c p = true ∧ l = "Piercing Pattern") ∨
      (is_dark_cloud_cover c p = true ∧ l = "Dark Cloud Cover") ∨
      (is_tweezer_tops c p = true ∧ l = "Tweezer Tops") ∨
      (is_tweezer_bottoms c p = true ∧ l = "Tweezer Bottoms") := by
  simp [two_patterns, List.mem_append, or_assoc]

theorem mem_three_patterns_iff {l : String} {a b c : Candle} :
    l ∈ three_patterns a b c ↔
      (is_morning_star a b c = true ∧ l = "Morning Star") ∨
      (is_evening_star a b c = true ∧ l = "Evening Star") ∨
      (is_three_white_soldiers a b c = true ∧ l = "Three White Soldiers") ∨
      (is_three_black_crows a b c = true ∧ l = "Three Black Crows") ∨
      (is_three_inside_up a b c = true ∧ l = "Three Inside Up") ∨
      (is_three_inside_down a b c = true ∧ l = "Three Inside Down") ∨
      (is_three_outside_up a b c = true ∧ l = "Three Outside Up") ∨
      (is_three_outside_down a b c = true ∧ l = "Three Outside Down") := by
  simp [three_patterns, List.mem_append, or_assoc]

/-! Arithmetic facts about the derived features. -/

theorem total_size_eq (c : Candle) :
    total_size c = upper_shadow c + lower_shadow c + body_size c := by
  have h1 : max c.open_ c.close - min c.open_ c.close = |c.close - c.open_| :=
    max_sub_min_eq_abs c.open_ c.close
  unfold total_size upper_shadow lower_shadow body_size body
  linarith

theorem body_size_nonneg (c : Candle) : 0 ≤ body_size c := abs_nonneg _

theorem total_size_nonneg_list {x : ℚ} {cs : List Candle}
    (h : x ∈ cs.map body_size) : 0 ≤ x := by
  rcases List.mem_map.mp h with ⟨c, _, rfl⟩
  exact body_size_nonneg c

theorem rollingMean20_nonneg {xs : List ℚ} (h : ∀ x ∈ xs, 0 ≤ x) (i : ℕ) :
    0 ≤ rollingMean20 xs i := by
  unfold rollingMean20
  refine div_nonneg (List.sum_nonneg ?_) (by positivity)
  intro x hx
  exact h x (((List.drop_sublist _ _).trans (List.take_sublist _ _)).subset hx)

theorem avg_body_size_nonneg (cs : List Candle) (i : ℕ) :
    0 ≤ avg_body_size cs i :=
  rollingMean20_nonneg (fun _ hx => total_size_nonneg_list hx) i

/-- Core exclusion: a candle cannot satisfy both the Doji body bound and
the Marubozu conditions when the body-size baseline is nonnegative. -/
theorem not_doji_and_marubozu (c : Candle) {aB : ℚ} (hB : 0 ≤ aB) (aT : ℚ) :
    ¬(is_doji c aT = true ∧ is_marubozu c aB = true) := by
  rintro ⟨hd, hm⟩
  rw [is_doji, decide_eq_true_eq] at hd
  rw [is_marubozu, Bool.and_eq_true, Bool.and_eq_true] at hm
  rcases hm with ⟨⟨h1, h2⟩, h3⟩
  rw [decide_eq_true_eq] at h1 h2 h3
  have ht := total_size_eq c
  have hb := body_size_nonneg c
  linarith

/-! The rolling mean as a window sum, for the baseline claims. -/

theorem list_sum_getD (l : List ℚ) :
    l.sum = ∑ j in Finset.range l.length, l.getD j 0 := by
  induction l with
  | nil => simp
  | cons a t ih =>
      rw [List.sum_cons, List.length_cons, Finset.sum_range_succ']
      simp only [List.getD_cons_succ, List.getD_cons_zero]
      rw [← ih]
      ring

theorem window_getD (xs : List ℚ) (i j : ℕ) (hj : j < min 20 (i + 1)) :
    ((xs.take (i + 1)).drop (i + 1 - min 20 (i + 1))).getD j 0 =
      xs.getD (i + 1 - min 20 (i + 1) + j) 0 := by
  have hlt : i + 1 - min 20 (i + 1) + j < i + 1 := by omega
  rw [List.getD_eq_getElem?_getD, List.getD_eq_getElem?_getD,
    List.getElem?_drop, List.getElem?_take]
  simp [hlt]

theorem window_length (xs : List ℚ) (i : ℕ) (hi : i < xs.length) :
    ((xs.take (i + 1)).drop (i + 1 - min 20 (i + 1))).length = min 20 (i + 1) := by
  rw [List.length_drop, List.length_take]
  omega

theorem rollingMean20_eq_windowSum (xs : List ℚ) (i : ℕ) (hi : i < xs.length) :
    rollingMean20 xs i =
      (∑ j in Finset.Icc (i + 1 - min 20 (i + 1)) i, xs.getD j 0) /
        ((min 20 (i + 1) : ℕ) : ℚ) := by
  show ((xs.take (i + 1)).drop (i + 1 - min 20 (i + 1))).sum /
      ((min 20 (i + 1) : ℕ) : ℚ) =
    (∑ j in Finset.Icc (i + 1 - min 20 (i + 1)) i, xs.getD j 0) /
      ((min 20 (i + 1) : ℕ) : ℚ)
  rw [list_sum_getD, window_length xs i hi]
  congr 1
  rw [← Nat.Ico_succ_right, Finset.sum_Ico_eq_sum_range]
  have hn : i + 1 - (i + 1 - min 20 (i + 1)) = min 20 (i + 1) := by omega
  rw [hn]
  refine Finset.sum_congr rfl ?_
  intro j hj
  rw [Finset.mem_range] at hj
  exact window_getD xs i j hj

theorem getD_map_body (cs : List Candle) (k : ℕ) (hk : k < cs.length) :
    (cs.map body_size).getD k 0 = body_size (cs.getD k default) := by
  rw [List.getD_eq_getElem?_getD, List.getD_eq_getElem?_getD, List.getElem?_map]
  rw [List.getElem?_eq_getElem hk]
  simp

theorem getD_map_total (cs : List Candle) (k : ℕ) (hk : k < cs.length) :
    (cs.map total_size).getD k 0 = total_size (cs.getD k default) := by
  rw [List.getD_eq_getElem?_getD, List.getD_eq_getElem?_getD, List.getElem?_map]
  rw [List.getElem?_eq_getElem hk]
  simp

/-! Shared membership characterization for two-candle labels inside the
full output. -/

theorem mem_detect_all_two_iff {l : String} (pre : List Candle) (p c : Candle)
    (hs : l ∉ singleTable) (ht : l ∉ threeTable) :
    l ∈ detect_all_patterns (pre ++ [p, c]) ↔ l ∈ two_patterns c p := by
  unfold detect_all_patterns
  rw [detect_two_append]
  simp only [List.mem_append]
  constructor
  · rintro ((h | h) | h)
    · exact absurd ((detect_single_sublist _).subset h) hs
    · exact h
    · exact absurd ((detect_three_sublist _).subset h) ht
  · intro h
    exact Or.inl (Or.inr h)

theorem contains_doji_label (c : Candle) :
    dojiFamily.contains (doji_label c) = true := by
  simpa using doji_label_mem c

theorem filter_ite_singleton_no_fam (b : Bool) (n : String)
    (h : dojiFamily.contains n = false) :
    (if b then [n] else ([] : List String)).filter
      (fun l => dojiFamily.contains l) = [] := by
  cases b <;> simp_all

/-- Restriction of the single tier to the Doji family: exactly the one
label chosen by the chain when the body test holds, nothing else. -/
theorem filter_single_fam (c : Candle) (aB aT : ℚ) :
    (single_patterns c aB aT).filter (fun l => dojiFamily.contains l) =
      if is_doji c aT then [doji_label c] else [] := by
  unfold single_patterns
  rw [List.filter_append, List.filter_append, List.filter_append,
    List.filter_append, List.filter_append, List.filter_append]
  rw [filter_ite_singleton_no_fam _ "Hammer" (by decide),
    filter_ite_singleton_no_fam _ "Inverted Hammer" (by decide),
    filter_ite_singleton_no_fam _ "Hanging Man" (by decide),
    filter_ite_singleton_no_fam _ "Shooting Star" (by decide),
    filter_ite_singleton_no_fam _ "Spinning Top" (by decide)]
  have hmaru : (if is_marubozu c aB then
      [if is_bullish c then "Bullish Marubozu" else "Bearish Marubozu"]
      else ([] : List String)).filter (fun l => dojiFamily.contains l) = [] := by
    cases hb : is_bullish c <;>
      simp only [hb, Bool.false_eq_true, if_false, if_true] <;>
      exact filter_ite_singleton_no_fam _ _ (by decide)
  rw [hmaru]
  cases hd : is_doji c aT
  · simp
  · simp only [if_true]
    simp [doji_label_mem c]

/-! Claim theorems. -/

/-- C1 (counterexample to the claim as stated): the zero-range candle
with all four prices equal to 100 has `total_size = 0`, yet the
detector emits the Doji-family label `Doji` for it, because the body
test `body_size <= 0.1 * total_size` is non-strict and `0 <= 0` holds. -/
theorem C1_counterexample :
    total_size ⟨100, 100, 100, 100⟩ = 0 ∧
      "Doji" ∈ detect_all_patterns [⟨100, 100, 100, 100⟩] := by
  constructor
  · norm_num [total_size]
  · have h : detect_all_patterns [⟨100, 100, 100, 100⟩] = ["Doji"] := by
      norm_num [detect_all_patterns, detect_single, detect_two, detect_three,
        single_patterns, doji_label, is_doji, is_dragonfly_doji,
        is_gravestone_doji, is_long_legged_doji, is_hammer, is_inverted_hammer,
        is_hanging_man, is_shooting_star, is_spinning_top, is_marubozu,
        is_bullish, is_bearish, body, body_size, upper_shadow, lower_shadow,
        total_size, avg_body_size, avg_total_size, rollingMean20]
    rw [h]
    simp

/-- C1 (amended): for a valid zero-range candle, one whose four prices
coincide, no ratio comparison can raise (all are multiplications, total
functions here), every strict ratio predicate of the single-candle
library (Hammer family, Spinning Top, Marubozu, and the shadow
conditions of Dragonfly, Gravestone and Long-legged) is false, but the
non-strict Doji body test holds, so the single-candle tier emits exactly
the plain label `Doji`. -/
theorem C1_zero_range_single_tier (pre : List Candle) (x : ℚ) :
    detect_single (pre ++ [⟨x, x, x, x⟩]) = ["Doji"] := by
  rw [detect_single_append]
  set aB := avg_body_size (pre ++ [⟨x, x, x, x⟩]) pre.length with haB
  have hB : 0 ≤ aB := avg_body_size_nonneg _ _
  have h1 : ¬(2 * aB < 0) := by linarith
  have h2 : ¬(aB < 0) := by linarith
  have e1 : body_size ⟨x, x, x, x⟩ = 0 := by simp [body_size, body]
  have e2 : upper_shadow ⟨x, x, x, x⟩ = 0 := by simp [upper_shadow]
  have e3 : lower_shadow ⟨x, x, x, x⟩ = 0 := by simp [lower_shadow]
  have e4 : total_size ⟨x, x, x, x⟩ = 0 := by simp [total_size]
  unfold single_patterns doji_label is_doji is_dragonfly_doji is_gravestone_doji
    is_long_legged_doji is_hammer is_inverted_hammer is_hanging_man
    is_shooting_star is_spinning_top is_marubozu
  rw [e1, e2, e3, e4]
  norm_num [h1, h2]

/-- C2 (counterexample to the claim as stated): the empty frame missing
all four required columns yields the empty label list, not a schema
error, because the emptiness short-circuit runs before validation. -/
theorem C2_counterexample :
    detect_candlestick_patterns ⟨false, false, false, false, []⟩ =
      Except.ok [] := rfl

/-- C2 (amended): for every nonempty input frame missing at least one
of the required columns open, high, low, close, detection fails with
the schema ValueError and returns no label list. -/
theorem C2_missing_column_fails (f : RawFrame) (hr : f.rows ≠ [])
    (hm : (f.hasOpen && f.hasHigh && f.hasLow && f.hasClose) = false) :
    ∃ e, detect_candlestick_patterns f = Except.error e := by
  rcases f with ⟨hO, hH, hL, hC, rows⟩
  cases rows with
  | nil => exact absurd rfl hr
  | cons a t =>
      cases hO <;> cases hH <;> cases hL <;> cases hC <;>
        first
          | exact ⟨_, rfl⟩
          | simp_all

/-- C2 witness: a concrete nonempty frame missing only the open column
is rejected with a schema error. -/
theorem C2_missing_column_fails_witness :
    ∃ e, detect_candlestick_patterns ⟨false, true, true, true, [⟨1, 2, 0, 1⟩]⟩ =
      Except.error e :=
  C2_missing_column_fails ⟨false, true, true, true, [⟨1, 2, 0, 1⟩]⟩
    (by simp) (by simp)

/-- C3: at most one Doji-family label ever appears in the output, and
the label emitted by the single tier for the family is exactly chosen by
the chain in priority order Dragonfly, Gravestone, tight-shadow plain
Doji, Long-legged, fallback plain Doji; first match wins. -/
theorem C3_doji_family_priority (pre : List Candle) (c : Candle) :
    (detect_all_patterns (pre ++ [c])).countP
        (fun l => dojiFamily.contains l) ≤ 1 ∧
    (detect_single (pre ++ [c])).filter (fun l => dojiFamily.contains l) =
      (if is_doji c (avg_total_size (pre ++ [c]) pre.length) then [doji_label c]
       else []) ∧
    (is_dragonfly_doji c = true → doji_label c = "Dragonfly Doji") ∧
    (is_dragonfly_doji c = false → is_gravestone_doji c = true →
      doji_label c = "Gravestone Doji") ∧
    (is_dragonfly_doji c = false → is_gravestone_doji c = false →
      (decide (upper_shadow c ≤ 0.1 * total_size c) &&
        decide (lower_shadow c ≤ 0.1 * total_size c)) = true →
      doji_label c = "Doji") ∧
    (is_dragonfly_doji c = false → is_gravestone_doji c = false →
      (decide (upper_shadow c ≤ 0.1 * total_size c) &&
        decide (lower_shadow c ≤ 0.1 * total_size c)) = false →
      is_long_legged_doji c = true → doji_label c = "Long-legged Doji") ∧
    (is_dragonfly_doji c = false → is_gravestone_doji c = false →
      (decide (upper_shadow c ≤ 0.1 * total_size c) &&
        decide (lower_shadow c ≤ 0.1 * total_size c)) = false →
      is_long_legged_doji c = false → doji_label c = "Doji") := by
  have htwo : ∀ x ∈ twoTable, ¬dojiFamily.contains x = true := by decide
  have hthree : ∀ x ∈ threeTable, ¬dojiFamily.contains x = true := by decide
  refine ⟨?_, ?_, ?_, ?_, ?_, ?_, ?_⟩
  · unfold detect_all_patterns
    rw [List.countP_append, List.countP_append]
    have h2 : (detect_two (pre ++ [c])).countP
        (fun l => dojiFamily.contains l) = 0 :=
      List.countP_eq_zero.mpr fun a ha =>
        htwo a ((detect_two_sublist _).subset ha)
    have h3 : (detect_three (pre ++ [c])).countP
        (fun l => dojiFamily.contains l) = 0 :=
      List.countP_eq_zero.mpr fun a ha =>
        hthree a ((detect_three_sublist _).subset ha)
    have h1 : (detect_single (pre ++ [c])).countP
        (fun l => dojiFamily.contains l) ≤ 1 := by
      rw [List.countP_eq_length_filter, detect_single_append, filter_single_fam]
      cases is_doji c (avg_total_size (pre ++ [c]) pre.length) <;> simp
    omega
  · rw [detect_single_append, filter_single_fam]
  · intro h1
    simp [doji_label, h1]
  · intro h1 h2
    simp [doji_label, h1, h2]
  · intro h1 h2 h3
    simp [doji_label, h1, h2, h3]
  · intro h1 h2 h3 h4
    simp [doji_label, h1, h2, h3, h4]
  · intro h1 h2 h3 h4
    simp [doji_label, h1, h2, h3, h4]

/-- C3 witness: a concrete dragonfly candle; the output carries at most
one family label and the chain picks the Dragonfly branch first. -/
theorem C3_doji_family_priority_witness :
    (detect_all_patterns [⟨100, 100.004, 99.9, 100⟩]).countP
        (fun l => dojiFamily.contains l) ≤ 1 ∧
    doji_label ⟨100, 100.004, 99.9, 100⟩ = "Dragonfly Doji" :=
  ⟨(C3_doji_family_priority [] ⟨100, 100.004, 99.9, 100⟩).1,
   (C3_doji_family_priority [] ⟨100, 100.004, 99.9, 100⟩).2.2.1
     (by norm_num [is_dragonfly_doji, body_size, body, upper_shadow,
        lower_shadow, total_size])⟩

/-- C4: empty input gives the empty list; a length-1 series can only
produce single-candle labels; a length-2 series only single- or
two-candle labels; from length 3 on all tiers are eligible; shorter
series simply skip the higher tiers instead of failing. -/
theorem C4_tier_gating (cs : List Candle) :
    (cs.length = 0 → detect_all_patterns cs = []) ∧
    (cs.length = 1 → ∀ l ∈ detect_all_patterns cs, l ∈ singleTable) ∧
    (cs.length = 2 → ∀ l ∈ detect_all_patterns cs, l ∈ singleTable ++ twoTable) ∧
    (3 ≤ cs.length → ∀ l ∈ detect_all_patterns cs, l ∈ fullTable) := by
  refine ⟨?_, ?_, ?_, ?_⟩
  · intro h
    rw [List.length_eq_zero.mp h]
    rfl
  · intro h l hl
    obtain ⟨a, rfl⟩ := List.length_eq_one.mp h
    have h2 : detect_two [a] = [] := rfl
    have h3 : detect_three [a] = [] := rfl
    rw [detect_all_patterns, h2, h3, List.append_nil, List.append_nil] at hl
    exact (detect_single_sublist _).subset hl
  · intro h l hl
    obtain ⟨a, b, rfl⟩ := List.length_eq_two.mp h
    have h3 : detect_three [a, b] = [] := rfl
    rw [detect_all_patterns, h3, List.append_nil, List.mem_append] at hl
    rcases hl with hl | hl
    · exact List.mem_append_left _ ((detect_single_sublist _).subset hl)
    · exact List.mem_append_right _ ((detect_two_sublist _).subset hl)
  · intro _ l hl
    exact (detect_all_sublist cs).subset hl

/-- C4 witness: concrete series of lengths 0, 1, 2 and 3. -/
theorem C4_tier_gating_witness :
    detect_all_patterns [] = [] ∧
    (∀ l ∈ detect_all_patterns [⟨100, 107, 98, 105⟩], l ∈ singleTable) ∧
    (∀ l ∈ detect_all_patterns [⟨100, 107, 98, 105⟩, ⟨105, 112, 103, 110⟩],
      l ∈ singleTable ++ twoTable) ∧
    (∀ l ∈ detect_all_patterns
        [⟨100, 107, 98, 105⟩, ⟨105, 112, 103, 110⟩, ⟨110, 115, 108, 108⟩],
      l ∈ fullTable) :=
  ⟨(C4_tier_gating []).1 rfl,
   (C4_tier_gating _).2.1 rfl,
   (C4_tier_gating _).2.2.1 rfl,
   (C4_tier_gating _).2.2.2 (by decide)⟩

/-- C5: the output equals the single tier, then the two tier, then the
three tier, and the whole list is a sublist of the duplicate-free full
vocabulary in its fixed table order, so the ordering is deterministic,
each group appears in table order, and no label repeats. -/
theorem C5_deterministic_order (cs : List Candle) :
    detect_all_patterns cs =
        detect_single cs ++ detect_two cs ++ detect_three cs ∧
      List.Sublist (detect_all_patterns cs) fullTable ∧
      fullTable.Nodup :=
  ⟨rfl, detect_all_sublist cs, by decide⟩

/-- C6: Harami Cross is emitted for the tail pair exactly when one of
the Harami predicates holds and the current candle passes the Doji body
test against its own total size (the unused average argument of the
doji method makes this equal to the body-to-range bound). -/
theorem C6_harami_cross_iff (pre : List Candle) (p c : Candle) :
    "Harami Cross" ∈ detect_all_patterns (pre ++ [p, c]) ↔
      ((is_bullish_harami c p = true ∨ is_bearish_harami c p = true) ∧
        body_size c ≤ 0.1 * total_size c) := by
  rw [mem_detect_all_two_iff pre p c (by decide) (by decide),
    mem_two_patterns_iff]
  simp [is_harami_cross, is_doji]

/-- C7: the engulfing labels are mutually exclusive on any tail pair,
and a bearish-then-bullish pair whose current candle opens below the
previous close and closes above the previous open is labelled Bullish
Engulfing and not Bearish Engulfing. -/
theorem C7_engulfing_symmetry (pre : List Candle) (p c : Candle) :
    ¬("Bullish Engulfing" ∈ detect_all_patterns (pre ++ [p, c]) ∧
        "Bearish Engulfing" ∈ detect_all_patterns (pre ++ [p, c])) ∧
      (is_bearish p = true → is_bullish c = true →
        c.open_ < p.close → p.open_ < c.close →
        "Bullish Engulfing" ∈ detect_all_patterns (pre ++ [p, c]) ∧
          "Bearish Engulfing" ∉ detect_all_patterns (pre ++ [p, c])) := by
  have hbull : "Bullish Engulfing" ∈ detect_all_patterns (pre ++ [p, c]) ↔
      is_bullish_engulfing c p = true := by
    rw [mem_detect_all_two_iff pre p c (by decide) (by decide),
      mem_two_patterns_iff]
    simp
  have hbear : "Bearish Engulfing" ∈ detect_all_patterns (pre ++ [p, c]) ↔
      is_bearish_engulfing c p = true := by
    rw [mem_detect_all_two_iff pre p c (by decide) (by decide),
      mem_two_patterns_iff]
    simp
  constructor
  · rintro ⟨h1, h2⟩
    rw [hbull] at h1
    rw [hbear] at h2
    unfold is_bullish_engulfing at h1
    unfold is_bearish_engulfing at h2
    simp only [is_bearish, is_bullish, Bool.and_eq_true, decide_eq_true_eq] at h1 h2
    linarith [h1.1.1.1, h2.1.1.1]
  · intro hbp hbc hoc hcl
    have hlt : body p < 0 := by
      rw [is_bearish, decide_eq_true_eq] at hbp
      exact hbp
    constructor
    · rw [hbull]
      unfold is_bullish_engulfing
      simp [hbp, hbc, hoc, hcl]
    · rw [hbear]
      unfold is_bearish_engulfing
      simp only [is_bullish, Bool.and_eq_true, decide_eq_true_eq]
      rintro ⟨⟨⟨hc, _⟩, _⟩, _⟩
      linarith

/-- C7 witness: the concrete engulfing scenario of the spec. -/
theorem C7_engulfing_symmetry_witness :
    "Bullish Engulfing" ∈
        detect_all_patterns [⟨120, 128, 94, 115⟩, ⟨95, 125, 94, 124⟩] ∧
      "Bearish Engulfing" ∉
        detect_all_patterns [⟨120, 128, 94, 115⟩, ⟨95, 125, 94, 124⟩] :=
  (C7_engulfing_symmetry [] ⟨120, 128, 94, 115⟩ ⟨95, 125, 94, 124⟩).2
    (by norm_num [is_bearish, body]) (by norm_num [is_bullish, body])
    (by norm_num) (by norm_num)

/-- C8: at every valid index the rolling baselines equal the arithmetic
mean of the respective feature over the window of the most recent
`min 20 (i+1)` candles ending at and including index `i`; with fewer
than 20 candles available the mean runs over all of them, and the
function is total, so no error is possible. -/
theorem C8_rolling_window (cs : List Candle) (i : ℕ) (hi : i < cs.length) :
    avg_body_size cs i =
        (∑ j in Finset.Icc (i + 1 - min 20 (i + 1)) i,
          body_size (cs.getD j default)) / ((min 20 (i + 1) : ℕ) : ℚ) ∧
      avg_total_size cs i =
        (∑ j in Finset.Icc (i + 1 - min 20 (i + 1)) i,
          total_size (cs.getD j default)) / ((min 20 (i + 1) : ℕ) : ℚ) := by
  constructor
  · unfold avg_body_size
    rw [rollingMean20_eq_windowSum _ _ (by simpa using hi)]
    congr 1
    refine Finset.sum_congr rfl fun j hj => ?_
    rw [Finset.mem_Icc] at hj
    exact getD_map_body cs j (by omega)
  · unfold avg_total_size
    rw [rollingMean20_eq_windowSum _ _ (by simpa using hi)]
    congr 1
    refine Finset.sum_congr rfl fun j hj => ?_
    rw [Finset.mem_Icc] at hj
    exact getD_map_total cs j (by omega)

/-- C8 witness: the baselines of a concrete two-candle series at its
last index are the means over both candles. -/
theorem C8_rolling_window_witness :
    avg_body_size [⟨0, 3, 0, 2⟩, ⟨0, 5, 0, 4⟩] 1 =
        (∑ j in Finset.Icc (1 + 1 - min 20 (1 + 1)) 1,
          body_size ([⟨0, 3, 0, 2⟩, ⟨0, 5, 0, 4⟩].getD j default)) /
          ((min 20 (1 + 1) : ℕ) : ℚ) ∧
      avg_total_size [⟨0, 3, 0, 2⟩, ⟨0, 5, 0, 4⟩] 1 =
        (∑ j in Finset.Icc (1 + 1 - min 20 (1 + 1)) 1,
          total_size ([⟨0, 3, 0, 2⟩, ⟨0, 5, 0, 4⟩].getD j default)) /
          ((min 20 (1 + 1) : ℕ) : ℚ) :=
  C8_rolling_window [⟨0, 3, 0, 2⟩, ⟨0, 5, 0, 4⟩] 1 (by norm_num)

/-- C9: no output ever contains both a Doji-family label and a Marubozu
label for the same tail candle: the Doji body bound and the Marubozu
shadow bounds cannot hold together because the body-size baseline is a
nonnegative mean. -/
theorem C9_doji_marubozu_exclusive (cs : List Candle) :
    (((detect_all_patterns cs).any fun l => dojiFamily.contains l) &&
      ((detect_all_patterns cs).any fun l => marubozuLabels.contains l)) =
      false := by
  have htwo : ∀ x ∈ twoTable,
      dojiFamily.contains x = false ∧ marubozuLabels.contains x = false := by
    decide
  have hthree : ∀ x ∈ threeTable,
      dojiFamily.contains x = false ∧ marubozuLabels.contains x = false := by
    decide
  by_contra hcon
  rw [Bool.not_eq_false, Bool.and_eq_true, List.any_eq_true,
    List.any_eq_true] at hcon
  obtain ⟨⟨d, hd, hdf⟩, m, hm, hmm⟩ := hcon
  rw [detect_all_patterns, List.mem_append, List.mem_append] at hd hm
  have hd1 : d ∈ detect_single cs := by
    rcases hd with (hd | hd) | hd
    · exact hd
    · rw [(htwo d ((detect_two_sublist cs).subset hd)).1] at hdf
      exact absurd hdf (by simp)
    · rw [(hthree d ((detect_three_sublist cs).subset hd)).1] at hdf
      exact absurd hdf (by simp)
  have hm1 : m ∈ detect_single cs := by
    rcases hm with (hm | hm) | hm
    · exact hm
    · rw [(htwo m ((detect_two_sublist cs).subset hm)).2] at hmm
      exact absurd hmm (by simp)
    · rw [(hthree m ((detect_three_sublist cs).subset hm)).2] at hmm
      exact absurd hmm (by simp)
  revert hd1 hm1
  unfold detect_single
  split
  case h_2 => simp
  case h_1 cur rest hrev =>
    intro hd1 hm1
    set aB := avg_body_size cs (cs.length - 1) with haB
    set aT := avg_total_size cs (cs.length - 1) with haT
    have hdoji : is_doji cur aT = true := by
      rcases mem_single_patterns_iff.mp hd1 with
        ⟨h, _⟩ | ⟨_, rfl⟩ | ⟨_, rfl⟩ | ⟨_, rfl⟩ | ⟨_, rfl⟩ | ⟨_, rfl⟩ | ⟨_, h⟩
      · exact h
      · exact absurd hdf (by decide)
      · exact absurd hdf (by decide)
      · exact absurd hdf (by decide)
      · exact absurd hdf (by decide)
      · exact absurd hdf (by decide)
      · cases hb : is_bullish cur <;> rw [hb] at h <;> subst h <;>
          exact absurd hdf (by decide)
    have hmaru : is_marubozu cur aB = true := by
      rcases mem_single_patterns_iff.mp hm1 with
        ⟨_, rfl⟩ | ⟨_, rfl⟩ | ⟨_, rfl⟩ | ⟨_, rfl⟩ | ⟨_, rfl⟩ | ⟨_, rfl⟩ | ⟨h, _⟩
      · have hin := doji_label_mem cur
        have : ∀ x ∈ dojiFamily, marubozuLabels.contains x = false := by decide
        rw [this _ hin] at hmm
        exact absurd hmm (by simp)
      · exact absurd hmm (by decide)
      · exact absurd hmm (by decide)
      · exact absurd hmm (by decide)
      · exact absurd hmm (by decide)
      · exact absurd hmm (by decide)
      · exact h
    exact not_doji_and_marubozu cur (haB ▸ avg_body_size_nonneg cs (cs.length - 1))
      aT ⟨hdoji, hmaru⟩

/-- C10: a length-zero input returns the empty list through the
emptiness short-circuit regardless of which required columns exist, so
no schema validation happens and no error can be raised. -/
theorem C10_empty_input_skips_schema (hO hH hL hC : Bool) :
    detect_candlestick_patterns ⟨hO, hH, hL, hC, []⟩ = Except.ok [] := rfl

end Candlestick
